import Mathlib

/-!
Verification of the pyjamaz Python binding layer
(`src/bindings/python/pyjamaz/__init__.py`) against its specification.

The binding wraps an opaque native optimization engine behind a ctypes FFI.
We embed `optimize_image` as a pure function parameterized by:
  * `fs`     — the filesystem, mapping a path to its contents (none = absent),
  * `engine` — the native `pyjamaz_optimize` call, mapping the marshalled
               options struct to an optional result struct (none = null handle),
  * `dec`    — UTF-8 decoding of C strings (`bytes.decode`), which either
               yields a string or raises (modelled as `Except Unit String`).
The function returns an event trace (file read, native call, field copies,
`pyjamaz_free_result`) together with either a raised Python exception or the
returned `OptimizeResult` dataclass, so claims about ordering ("before any
native call", "free exactly once, after the copies") are statements about the
trace. Python unbounded ints are `Int`/`Nat`; C fixed-width fields are reduced
modulo their width; Python floats compared only against 0.0 and 1.0 are
modelled as rationals, on which those comparisons are exact.
-/

deriving instance DecidableEq for Except

namespace Pyjamaz

/-- Observable events of one `optimize_image` call, in program order:
reading a file's contents into memory, the `_lib.pyjamaz_optimize` call
(recording whether it returned a null handle), copies of the result struct's
fields into Python-owned memory, and the `_lib.pyjamaz_free_result` call. -/
inductive Event
  | readFile
  | nativeCall (returnedNull : Bool)
  | copyOutput
  | copyFormat
  | copyError
  | freeResult
deriving DecidableEq, Repr

/-- Python exceptions that `optimize_image` can raise. -/
inductive PyError
  | valueError (msg : String)
  | fileNotFoundError (msg : String)
  | unicodeDecodeError
deriving DecidableEq, Repr

/-- The `input_path` argument: either a `bytes` object or a path (str/Path). -/
inductive InputSource
  | bytes (data : List Nat)
  | path (p : String)
deriving DecidableEq, Repr

/-- The C `_OptimizeOptions` struct marshalled for `pyjamaz_optimize`.
Fixed-width fields (`c_uint32`, `c_uint8`, `c_uint64`) hold their value
reduced modulo the width. -/
structure COptimizeOptions where
  input_bytes : List Nat
  input_len : Nat
  max_bytes : Nat
  max_diff : ℚ
  metric_type : String
  formats : String
  concurrency : Nat
  cache_enabled : Nat
  cache_dir : String
  cache_max_size : Nat
deriving DecidableEq, Repr

/-- The C `_OptimizeResult` struct returned (behind a handle) by the engine.
`format` and `error_message` are nullable C strings (`c_char_p`), which
ctypes surfaces as `bytes | None`. -/
structure COptimizeResult where
  output_bytes : List Nat
  output_len : Nat
  format : Option (List Nat)
  diff_value : ℚ
  passed : Nat
  error_message : Option (List Nat)
deriving DecidableEq, Repr

/-- The Python `OptimizeResult` dataclass returned to the caller. -/
structure OptimizeResult where
  output_buffer : List Nat
  format : String
  diff_value : ℚ
  passed : Bool
  error_message : Option String
deriving DecidableEq, Repr

/-- `OptimizeResult.size`: length of the optimized bytes. -/
def OptimizeResult.size (r : OptimizeResult) : Nat :=
  r.output_buffer.length

/-- The 100 MiB input cap (`MAX_INPUT_SIZE = 100 * 1024 * 1024`). -/
def MAX_INPUT_SIZE : Nat := 100 * 1024 * 1024

/-- Python truthiness of a ctypes `c_char_p` value (`bytes | None`):
`None` and `b""` are falsy, non-empty bytes truthy. -/
def cbytesTruthy : Option (List Nat) → Bool
  | none => false
  | some l => !l.isEmpty

/-- The four parameter checks at the top of `optimize_image`, in source
order: concurrency range, `max_bytes` sign, `max_diff` range, metric token.
Returns the exception raised by the first failing check, if any. -/
def validateParams (max_bytes : Option Int) (max_diff : Option ℚ)
    (metric : String) (concurrency : Int) : Option PyError :=
  if concurrency < 1 ∨ concurrency > 16 then
    some (.valueError ("concurrency must be 1-16, got " ++ toString concurrency))
  else if max_bytes.any (fun v => decide (v < 0)) then
    some (.valueError ("max_bytes must be non-negative, got " ++
      toString (max_bytes.getD 0)))
  else if max_diff.any (fun d => decide (d < 0 ∨ d > 1)) then
    some (.valueError ("max_diff must be 0.0-1.0, got " ++
      toString (max_diff.getD 0)))
  else if metric ≠ "dssim" ∧ metric ≠ "ssimulacra2" ∧ metric ≠ "none" then
    some (.valueError ("metric must be dssim, ssimulacra2, or none, got " ++ metric))
  else
    none

/-- Reading the input bytes with size validation: a `bytes` argument is
checked for emptiness and the 100 MiB cap directly; a path argument is
checked for existence and its `os.path.getsize` against the same bounds
BEFORE the file contents are read (the `readFile` event fires only when
all checks pass). -/
def readInput (fs : String → Option (List Nat)) (input : InputSource) :
    List Event × Except PyError (List Nat) :=
  match input with
  | .bytes b =>
      if b.length = 0 then
        ([], .error (.valueError "Input bytes cannot be empty"))
      else if MAX_INPUT_SIZE < b.length then
        ([], .error (.valueError ("Input too large: " ++ toString b.length ++
          " bytes (max " ++ toString MAX_INPUT_SIZE ++ ")")))
      else
        ([], .ok b)
  | .path p =>
      match fs p with
      | none => ([], .error (.fileNotFoundError ("Input file not found: " ++ p)))
      | some contents =>
          if contents.length = 0 then
            ([], .error (.valueError ("Input file is empty: " ++ p)))
          else if MAX_INPUT_SIZE < contents.length then
            ([], .error (.valueError ("File too large: " ++ toString contents.length ++
              " bytes (max " ++ toString MAX_INPUT_SIZE ++ ")")))
          else
            ([.readFile], .ok contents)

/-- Everything `optimize_image` does before the FFI call: parameter
validation, input acquisition, and marshalling of the `_OptimizeOptions`
struct (`max_bytes or 0` into `c_uint32`, `max_diff or 0.0`, the
comma-joined `formats` string defaulting to the full set, `concurrency`
into `c_uint8`, the cache settings). -/
def buildOptions (fs : String → Option (List Nat)) (input : InputSource)
    (max_bytes : Option Int) (max_diff : Option ℚ) (metric : String)
    (formats : Option (List String)) (concurrency : Int)
    (cache_enabled : Bool) (cache_dir : Option String) (cache_max_size : Int) :
    List Event × Except PyError COptimizeOptions :=
  match validateParams max_bytes max_diff metric concurrency with
  | some e => ([], .error e)
  | none =>
    match readInput fs input with
    | (ev, .error e) => (ev, .error e)
    | (ev, .ok input_bytes) =>
      let formats_str :=
        match formats with
        | none => "jpeg,png,webp,avif"
        | some l => String.intercalate "," l
      let cache_dir_str :=
        match cache_dir with
        | none => ""
        | some s => s
      (ev, .ok {
        input_bytes := input_bytes,
        input_len := input_bytes.length,
        max_bytes := (max_bytes.getD 0).toNat % 2 ^ 32,
        max_diff := max_diff.getD 0,
        metric_type := metric,
        formats := formats_str,
        concurrency := concurrency.toNat % 2 ^ 8,
        cache_enabled := if cache_enabled then 1 else 0,
        cache_dir := cache_dir_str,
        cache_max_size := cache_max_size.toNat % 2 ^ 64 })

/-- Extraction of the Python `OptimizeResult` from a non-null result struct
(the body of the `try:` block): the output bytes are copied only when
`result.passed and result.output_len > 0` (otherwise `b""`), then the
`format` and `error_message` C strings are decoded (each decode may raise,
in which case later fields are not copied and the exception propagates). -/
def extractResult (dec : List Nat → Except Unit String) (r : COptimizeResult) :
    List Event × Except PyError OptimizeResult :=
  let copyOut : List Event :=
    if r.passed ≠ 0 ∧ 0 < r.output_len then [.copyOutput] else []
  let output_buffer : List Nat :=
    if r.passed ≠ 0 ∧ 0 < r.output_len then r.output_bytes.take r.output_len else []
  let fmtStep : Except PyError String :=
    if cbytesTruthy r.format then
      match dec (r.format.getD []) with
      | .error _ => .error .unicodeDecodeError
      | .ok s => .ok s
    else .ok ""
  match fmtStep with
  | .error e => (copyOut, .error e)
  | .ok format_str =>
    let errStep : Except PyError (Option String) :=
      if cbytesTruthy r.error_message then
        match dec (r.error_message.getD []) with
        | .error _ => .error .unicodeDecodeError
        | .ok s => .ok (some s)
      else .ok none
    match errStep with
    | .error e => (copyOut ++ [.copyFormat], .error e)
    | .ok error_msg =>
      (copyOut ++ [.copyFormat, .copyError],
       .ok { output_buffer := output_buffer,
             format := format_str,
             diff_value := r.diff_value,
             passed := decide (r.passed ≠ 0),
             error_message := error_msg })

/-- The `OptimizeResult` returned when `pyjamaz_optimize` yields a null
handle. -/
def nullHandleResult : OptimizeResult :=
  { output_buffer := [],
    format := "",
    diff_value := 0,
    passed := false,
    error_message := some "Optimization failed: null result" }

/-- The full `optimize_image` control flow: validate and marshal, call the
engine, and on a non-null handle extract the fields and free the handle in
a `finally:` block (so `freeResult` is emitted after extraction on every
path, raising or not). -/
def optimize_image (fs : String → Option (List Nat))
    (engine : COptimizeOptions → Option COptimizeResult)
    (dec : List Nat → Except Unit String)
    (input : InputSource)
    (max_bytes : Option Int) (max_diff : Option ℚ) (metric : String)
    (formats : Option (List String)) (concurrency : Int)
    (cache_enabled : Bool) (cache_dir : Option String) (cache_max_size : Int) :
    List Event × Except PyError OptimizeResult :=
  match buildOptions fs input max_bytes max_diff metric formats concurrency
      cache_enabled cache_dir cache_max_size with
  | (ev, .error e) => (ev, .error e)
  | (ev, .ok opts) =>
    match engine opts with
    | none => (ev ++ [.nativeCall true], .ok nullHandleResult)
    | some r =>
      let step := extractResult dec r
      (ev ++ [.nativeCall false] ++ step.1 ++ [.freeResult], step.2)

/-- Modelled from the spec: the constraint-satisfaction predicate of the
absent native engine — the output honours `max_bytes` when it is non-zero
and `max_diff` when it is non-zero ("satisfy both constraints that were
non-zero"). -/
def satisfiesConstraints (opts : COptimizeOptions) (r : COptimizeResult) : Prop :=
  (opts.max_bytes ≠ 0 → r.output_len ≤ opts.max_bytes) ∧
  (opts.max_diff ≠ 0 → r.diff_value ≤ opts.max_diff)

instance (opts : COptimizeOptions) (r : COptimizeResult) :
    Decidable (satisfiesConstraints opts r) := by
  unfold satisfiesConstraints; infer_instance

/-- Modelled from the spec: the invariant of the absent native engine's
result struct — the buffer pointer covers `output_len` bytes; if `passed`
then the output is non-empty and satisfies every non-zero constraint; if
not `passed` then either at least one constraint is violated or no
candidate could be produced, with a non-empty error message in the
no-candidate case. -/
def EngineResultOk (opts : COptimizeOptions) (r : COptimizeResult) : Prop :=
  r.output_len ≤ r.output_bytes.length ∧
  (r.passed ≠ 0 → 0 < r.output_len ∧ satisfiesConstraints opts r) ∧
  (r.passed = 0 → ¬ satisfiesConstraints opts r ∨
    (r.output_len = 0 ∧ cbytesTruthy r.error_message = true))

instance (opts : COptimizeOptions) (r : COptimizeResult) :
    Decidable (EngineResultOk opts r) := by
  unfold EngineResultOk; infer_instance

/-! ### Shared lemmas about the validation stage -/

theorem option_any_neg_false (mb : Option Int) (hmb : ∀ v, mb = some v → 0 ≤ v) :
    mb.any (fun v => decide (v < 0)) = false := by
  cases mb with
  | none => rfl
  | some v =>
    simp only [Option.any]
    exact decide_eq_false (not_lt.mpr (hmb v rfl))

theorem option_any_diff_false (md : Option ℚ) (hmd : ∀ d, md = some d → 0 ≤ d ∧ d ≤ 1) :
    md.any (fun d => decide (d < 0 ∨ d > 1)) = false := by
  cases md with
  | none => rfl
  | some d =>
    simp only [Option.any]
    apply decide_eq_false
    rcases hmd d rfl with ⟨hd0, hd1⟩
    push_neg
    exact ⟨hd0, hd1⟩

theorem validateParams_none_of_valid (mb : Option Int) (md : Option ℚ)
    (metric : String) (c : Int) (h1 : 1 ≤ c) (h2 : c ≤ 16)
    (hmb : ∀ v, mb = some v → 0 ≤ v)
    (hmd : ∀ d, md = some d → 0 ≤ d ∧ d ≤ 1)
    (hm : metric = "dssim" ∨ metric = "ssimulacra2" ∨ metric = "none") :
    validateParams mb md metric c = none := by
  have hc : ¬ (c < 1 ∨ c > 16) := by omega
  have hb := option_any_neg_false mb hmb
  have hd := option_any_diff_false md hmd
  have hmetric : ¬ (metric ≠ "dssim" ∧ metric ≠ "ssimulacra2" ∧ metric ≠ "none") := by
    rcases hm with h | h | h <;> simp [h]
  simp only [validateParams, if_neg hc, hb, hd, if_neg hmetric, Bool.false_eq_true,
    if_false]

/-! ### Shared lemmas about extraction and event traces -/

theorem extractResult_2_eq (dec : List Nat → Except Unit String) (r : COptimizeResult)
    (s1 s2 : String)
    (hs1 : dec (r.format.getD []) = .ok s1)
    (hs2 : dec (r.error_message.getD []) = .ok s2) :
    (extractResult dec r).2 = .ok
      { output_buffer := if r.passed ≠ 0 ∧ 0 < r.output_len then
          r.output_bytes.take r.output_len else [],
        format := if cbytesTruthy r.format then s1 else "",
        diff_value := r.diff_value,
        passed := decide (r.passed ≠ 0),
        error_message := if cbytesTruthy r.error_message then some s2 else none } := by
  unfold extractResult
  by_cases hf : cbytesTruthy r.format <;>
    by_cases he : cbytesTruthy r.error_message <;>
    simp [hf, he, hs1, hs2]

theorem extractResult_events (dec : List Nat → Except Unit String)
    (r : COptimizeResult) :
    ∀ e ∈ (extractResult dec r).1,
      e = Event.copyOutput ∨ e = Event.copyFormat ∨ e = Event.copyError := by
  intro e he
  unfold extractResult at he
  rcases hdf : dec (r.format.getD []) with u | s1 <;>
    rcases hde : dec (r.error_message.getD []) with u2 | s2 <;>
    by_cases hp : r.passed ≠ 0 ∧ 0 < r.output_len <;>
    by_cases hf : cbytesTruthy r.format <;>
    by_cases hee : cbytesTruthy r.error_message <;>
    simp [hdf, hde, hp, hf, hee] at he <;>
    tauto

theorem readInput_fst (fs : String → Option (List Nat)) (input : InputSource) :
    (readInput fs input).1 = [] ∨ (readInput fs input).1 = [Event.readFile] := by
  cases input with
  | bytes b =>
    by_cases h0 : b.length = 0
    · simp [readInput, h0]
    · by_cases h1 : MAX_INPUT_SIZE < b.length
      · simp [readInput, h0, h1]
      · simp [readInput, h0, h1]
  | path p =>
    rcases hfs : fs p with _ | contents
    · simp [readInput, hfs]
    · by_cases h0 : contents.length = 0
      · simp [readInput, hfs, h0]
      · by_cases h1 : MAX_INPUT_SIZE < contents.length
        · simp [readInput, hfs, h0, h1]
        · simp [readInput, hfs, h0, h1]

theorem buildOptions_fst (fs : String → Option (List Nat)) (input : InputSource)
    (mb : Option Int) (md : Option ℚ) (metric : String)
    (fmts : Option (List String)) (c : Int) (ce : Bool) (cd : Option String)
    (cms : Int) :
    (buildOptions fs input mb md metric fmts c ce cd cms).1 = [] ∨
    (buildOptions fs input mb md metric fmts c ce cd cms).1 = [Event.readFile] := by
  unfold buildOptions
  rcases hv : validateParams mb md metric c with _ | e
  · rcases h : readInput fs input with ⟨ev, res⟩
    have hev := readInput_fst fs input
    rw [h] at hev
    cases res <;> simpa using hev
  · left; rfl

theorem extractResult_ok_inv (dec : List Nat → Except Unit String)
    (r : COptimizeResult) (res : OptimizeResult)
    (h : (extractResult dec r).2 = .ok res) :
    res.passed = decide (r.passed ≠ 0) ∧
    res.output_buffer = (if r.passed ≠ 0 ∧ 0 < r.output_len then
      r.output_bytes.take r.output_len else []) ∧
    (cbytesTruthy r.error_message = true →
      ∃ s, res.error_message = some s ∧ dec (r.error_message.getD []) = .ok s) := by
  unfold extractResult at h
  by_cases hf : cbytesTruthy r.format
  · rcases hdf : dec (r.format.getD []) with u | s1
    · simp [hf, hdf] at h
    · by_cases he : cbytesTruthy r.error_message
      · rcases hde : dec (r.error_message.getD []) with u2 | s2
        · simp [hf, hdf, he, hde] at h
        · simp only [hf, hdf, he, hde, if_true, Except.ok.injEq] at h
          subst h
          exact ⟨rfl, rfl, fun _ => ⟨s2, rfl, rfl⟩⟩
      · simp only [hf, hdf, he, if_true, if_false, Bool.false_eq_true,
          Except.ok.injEq] at h
        subst h
        exact ⟨rfl, rfl, fun hc => absurd hc (by simp [he])⟩
  · by_cases he : cbytesTruthy r.error_message
    · rcases hde : dec (r.error_message.getD []) with u2 | s2
      · simp [hf, hde, he] at h
      · simp only [hf, he, hde, if_true, if_false, Bool.false_eq_true,
          Except.ok.injEq] at h
        subst h
        exact ⟨rfl, rfl, fun _ => ⟨s2, rfl, rfl⟩⟩
    · simp only [hf, he, if_false, Bool.false_eq_true, Except.ok.injEq] at h
      subst h
      exact ⟨rfl, rfl, fun hc => absurd hc (by simp [he])⟩

/-! ### Claim theorems -/

/-- C3: for every concurrency value outside 1..16, `optimize_image` raises
`ValueError` with an empty event trace (so before reading any input and
before any native call), and for every concurrency value in 1..16 no such
rejection occurs: whenever marshalling succeeds, the options struct carries
the concurrency value unchanged. -/
theorem optimize_image_concurrency_check
    (fs : String → Option (List Nat))
    (engine : COptimizeOptions → Option COptimizeResult)
    (dec : List Nat → Except Unit String) (input : InputSource)
    (mb : Option Int) (md : Option ℚ) (metric : String)
    (fmts : Option (List String)) (c : Int) (ce : Bool) (cd : Option String)
    (cms : Int) :
    (c < 1 ∨ c > 16 →
      optimize_image fs engine dec input mb md metric fmts c ce cd cms =
        ([], .error (.valueError ("concurrency must be 1-16, got " ++ toString c)))) ∧
    (1 ≤ c → c ≤ 16 → ∀ ev opts,
      buildOptions fs input mb md metric fmts c ce cd cms = (ev, .ok opts) →
      opts.concurrency = c.toNat) := by
  constructor
  · intro h
    simp only [optimize_image, buildOptions, validateParams, if_pos h]
  · intro h1 h2 ev opts hb
    cases hval : validateParams mb md metric c with
    | some e => simp [buildOptions, hval] at hb
    | none =>
      rcases hin : readInput fs input with ⟨ev2, res⟩
      cases res with
      | error e => simp [buildOptions, hval, hin] at hb
      | ok inb =>
        simp only [buildOptions, Prod.mk.injEq, Except.ok.injEq, hval, hin] at hb
        obtain ⟨-, hopts⟩ := hb
        subst hopts
        show c.toNat % 2 ^ 8 = c.toNat
        omega

/-- C3 witness: a concrete out-of-range call (concurrency 0) is rejected with
an empty trace, and a concrete in-range call (concurrency 4) marshals the
value 4 into the options struct. -/
theorem optimize_image_concurrency_check_witness :
    (optimize_image (fun _ => none) (fun _ => none) (fun _ => .ok "")
      (.bytes [0]) none none "dssim" none 0 true none 0 =
      ([], .error (.valueError ("concurrency must be 1-16, got " ++ toString (0 : Int))))) ∧
    (COptimizeOptions.concurrency
      { input_bytes := [0], input_len := 1, max_bytes := 0, max_diff := 0,
        metric_type := "dssim", formats := "jpeg,png,webp,avif", concurrency := 4,
        cache_enabled := 1, cache_dir := "", cache_max_size := 0 } = Int.toNat 4) := by
  constructor
  · exact (optimize_image_concurrency_check (fun _ => none) (fun _ => none)
      (fun _ => .ok "") (.bytes [0]) none none "dssim" none 0 true none 0).1
      (Or.inl (by norm_num))
  · exact (optimize_image_concurrency_check (fun _ => none) (fun _ => none)
      (fun _ => .ok "") (.bytes [0]) none none "dssim" none 4 true none 0).2
      (by norm_num) (by norm_num) []
      { input_bytes := [0], input_len := 1, max_bytes := 0, max_diff := 0,
        metric_type := "dssim", formats := "jpeg,png,webp,avif", concurrency := 4,
        cache_enabled := 1, cache_dir := "", cache_max_size := 0 } (by decide)

/-- C5: empty input — a zero-length bytes object or a path to a zero-size
file — is rejected with `ValueError` and an empty event trace, so before any
native call (and distinctly from search-phase failures, which are reported
through the returned result instead). -/
theorem optimize_image_empty_input_rejected
    (fs : String → Option (List Nat))
    (engine : COptimizeOptions → Option COptimizeResult)
    (dec : List Nat → Except Unit String)
    (mb : Option Int) (md : Option ℚ) (metric : String)
    (fmts : Option (List String)) (c : Int) (ce : Bool) (cd : Option String)
    (cms : Int)
    (hv : validateParams mb md metric c = none) :
    (optimize_image fs engine dec (.bytes []) mb md metric fmts c ce cd cms =
      ([], .error (.valueError "Input bytes cannot be empty"))) ∧
    (∀ p, fs p = some [] →
      optimize_image fs engine dec (.path p) mb md metric fmts c ce cd cms =
        ([], .error (.valueError ("Input file is empty: " ++ p)))) := by
  constructor
  · simp [optimize_image, buildOptions, hv, readInput]
  · intro p hp
    simp [optimize_image, buildOptions, hv, readInput, hp]

/-- C5 witness: a concrete empty bytes object and a concrete path to an
empty file are both rejected with an empty trace. -/
theorem optimize_image_empty_input_rejected_witness :
    (optimize_image (fun _ => some []) (fun _ => none) (fun _ => .ok "")
      (.bytes []) none none "dssim" none 4 true none 0 =
      ([], .error (.valueError "Input bytes cannot be empty"))) ∧
    (optimize_image (fun _ => some []) (fun _ => none) (fun _ => .ok "")
      (.path "a.png") none none "dssim" none 4 true none 0 =
      ([], .error (.valueError ("Input file is empty: " ++ "a.png")))) := by
  have h := optimize_image_empty_input_rejected (fun _ => some []) (fun _ => none)
    (fun _ => .ok "") none none "dssim" none 4 true none 0 (by decide)
  exact ⟨h.1, h.2 "a.png" rfl⟩

/-- C9: every input larger than 100 MiB — whether a bytes object or a file
path — is rejected with `ValueError` and an empty event trace: in the path
case in particular the trace contains no `readFile` event, so the file's
contents are never read into memory, and no native call is made. This cap
is the binding's own, not stated in the spec. -/
theorem optimize_image_input_size_cap
    (fs : String → Option (List Nat))
    (engine : COptimizeOptions → Option COptimizeResult)
    (dec : List Nat → Except Unit String)
    (mb : Option Int) (md : Option ℚ) (metric : String)
    (fmts : Option (List String)) (c : Int) (ce : Bool) (cd : Option String)
    (cms : Int)
    (hv : validateParams mb md metric c = none) :
    (∀ b : List Nat, MAX_INPUT_SIZE < b.length →
      optimize_image fs engine dec (.bytes b) mb md metric fmts c ce cd cms =
        ([], .error (.valueError ("Input too large: " ++ toString b.length ++
          " bytes (max " ++ toString MAX_INPUT_SIZE ++ ")")))) ∧
    (∀ p contents, fs p = some contents → MAX_INPUT_SIZE < contents.length →
      optimize_image fs engine dec (.path p) mb md metric fmts c ce cd cms =
        ([], .error (.valueError ("File too large: " ++ toString contents.length ++
          " bytes (max " ++ toString MAX_INPUT_SIZE ++ ")")))) := by
  have hMAX : 0 < MAX_INPUT_SIZE := by norm_num [MAX_INPUT_SIZE]
  constructor
  · intro b hb
    have h0 : ¬ b.length = 0 := by omega
    simp [optimize_image, buildOptions, hv, readInput, h0, hb]
  · intro p contents hp hc
    have h0 : ¬ contents.length = 0 := by omega
    simp [optimize_image, buildOptions, hv, readInput, hp, h0, hc]

/-- C9 witness: a file of 100 MiB + 1 bytes is rejected with an empty trace
(no `readFile`, no native call). -/
theorem optimize_image_input_size_cap_witness :
    optimize_image (fun _ => some (List.replicate (MAX_INPUT_SIZE + 1) 0))
      (fun _ => none) (fun _ => .ok "")
      (.path "big.png") none none "dssim" none 4 true none 0 =
      ([], .error (.valueError ("File too large: " ++ toString (MAX_INPUT_SIZE + 1) ++
        " bytes (max " ++ toString MAX_INPUT_SIZE ++ ")"))) := by
  have h := (optimize_image_input_size_cap
    (fun _ => some (List.replicate (MAX_INPUT_SIZE + 1) 0)) (fun _ => none)
    (fun _ => .ok "") none none "dssim" none 4 true none 0 (by decide)).2
    "big.png" (List.replicate (MAX_INPUT_SIZE + 1) 0) rfl
    (by simp)
  simpa using h

/-- C10: a `max_diff` value strictly below 0.0 or strictly above 1.0 is
rejected with `ValueError` and an empty event trace (before any native
call), and every value in [0.0, 1.0] — as well as `None` — passes
validation, so the accepted domain is exactly [0.0, 1.0] or `None`. This
upper bound is the binding's own, beyond the spec's "0.0 = unbounded". -/
theorem optimize_image_max_diff_domain
    (fs : String → Option (List Nat))
    (engine : COptimizeOptions → Option COptimizeResult)
    (dec : List Nat → Except Unit String) (input : InputSource)
    (mb : Option Int) (metric : String)
    (fmts : Option (List String)) (c : Int) (ce : Bool) (cd : Option String)
    (cms : Int)
    (h1 : 1 ≤ c) (h2 : c ≤ 16) (hmb : ∀ v, mb = some v → 0 ≤ v) :
    (∀ d : ℚ, d < 0 ∨ d > 1 →
      optimize_image fs engine dec input mb (some d) metric fmts c ce cd cms =
        ([], .error (.valueError ("max_diff must be 0.0-1.0, got " ++ toString d)))) ∧
    (∀ md : Option ℚ, (∀ d, md = some d → 0 ≤ d ∧ d ≤ 1) →
      metric = "dssim" ∨ metric = "ssimulacra2" ∨ metric = "none" →
      validateParams mb md metric c = none) := by
  constructor
  · intro d hd
    have hc : ¬ (c < 1 ∨ c > 16) := by omega
    have hb := option_any_neg_false mb hmb
    have hdany : (some d).any (fun d => decide (d < 0 ∨ d > 1)) = true := by
      simp only [Option.any]
      exact decide_eq_true hd
    simp only [optimize_image, buildOptions, validateParams, if_neg hc, hb,
      Bool.false_eq_true, if_false, hdany, if_true, Option.getD_some]
  · intro md hmd hm
    exact validateParams_none_of_valid mb md metric c h1 h2 hmb hmd hm

/-- C10 witness: `max_diff = 2` is rejected with an empty trace, while
`max_diff = 1` passes validation. -/
theorem optimize_image_max_diff_domain_witness :
    (optimize_image (fun _ => none) (fun _ => none) (fun _ => .ok "")
      (.bytes [0]) none (some 2) "dssim" none 4 true none 0 =
      ([], .error (.valueError ("max_diff must be 0.0-1.0, got " ++ toString (2 : ℚ))))) ∧
    validateParams none (some 1) "dssim" 4 = none := by
  have h := optimize_image_max_diff_domain (fun _ => none) (fun _ => none)
    (fun _ => .ok "") (.bytes [0]) none "dssim" none 4 true none 0
    (by norm_num) (by norm_num) (by intro v hv; cases hv)
  refine ⟨h.1 2 (Or.inr (by norm_num)), h.2 (some 1) ?_ (Or.inl rfl)⟩
  intro d hd
  cases hd
  exact ⟨by norm_num, le_refl 1⟩

/-- C7: every metric string outside the three accepted tokens `dssim`,
`ssimulacra2`, `none` is rejected with `ValueError` and an empty event trace
(before any native call), and each of the three accepted tokens passes
validation. -/
theorem optimize_image_metric_check
    (fs : String → Option (List Nat))
    (engine : COptimizeOptions → Option COptimizeResult)
    (dec : List Nat → Except Unit String) (input : InputSource)
    (mb : Option Int) (md : Option ℚ)
    (fmts : Option (List String)) (c : Int) (ce : Bool) (cd : Option String)
    (cms : Int)
    (h1 : 1 ≤ c) (h2 : c ≤ 16) (hmb : ∀ v, mb = some v → 0 ≤ v)
    (hmd : ∀ d, md = some d → 0 ≤ d ∧ d ≤ 1) :
    (∀ metric, metric ≠ "dssim" → metric ≠ "ssimulacra2" → metric ≠ "none" →
      optimize_image fs engine dec input mb md metric fmts c ce cd cms =
        ([], .error (.valueError
          ("metric must be dssim, ssimulacra2, or none, got " ++ metric)))) ∧
    (∀ metric, metric = "dssim" ∨ metric = "ssimulacra2" ∨ metric = "none" →
      validateParams mb md metric c = none) := by
  constructor
  · intro metric hm1 hm2 hm3
    have hc : ¬ (c < 1 ∨ c > 16) := by omega
    have hb := option_any_neg_false mb hmb
    have hd := option_any_diff_false md hmd
    have hmm : metric ≠ "dssim" ∧ metric ≠ "ssimulacra2" ∧ metric ≠ "none" :=
      ⟨hm1, hm2, hm3⟩
    simp only [optimize_image, buildOptions, validateParams, if_neg hc, hb, hd,
      Bool.false_eq_true, if_false, if_pos hmm]
  · intro metric hm
    exact validateParams_none_of_valid mb md metric c h1 h2 hmb hmd hm

/-- C7 witness: the token `psnr` is rejected with an empty trace, while
`ssimulacra2` passes validation. -/
theorem optimize_image_metric_check_witness :
    (optimize_image (fun _ => none) (fun _ => none) (fun _ => .ok "")
      (.bytes [0]) none none "psnr" none 4 true none 0 =
      ([], .error (.valueError
        ("metric must be dssim, ssimulacra2, or none, got " ++ "psnr")))) ∧
    validateParams none none "ssimulacra2" 4 = none := by
  have h := optimize_image_metric_check (fun _ => none) (fun _ => none)
    (fun _ => .ok "") (.bytes [0]) none none none 4 true none 0
    (by norm_num) (by norm_num) (by intro v hv; cases hv) (by intro d hd; cases hd)
  exact ⟨h.1 "psnr" (by decide) (by decide) (by decide),
    h.2 "ssimulacra2" (Or.inr (Or.inl rfl))⟩

/-- C2: when the native call returns a null handle, `optimize_image` does
not raise: it returns an `OptimizeResult` with `passed = false`, empty
output buffer, empty format, `diff_value = 0.0` and a non-empty error
message; and when the native call returns a non-null result struct (whose
strings decode), the per-request outcome is likewise reported through the
returned result's `passed` field rather than by raising. -/
theorem optimize_image_null_handle_reports
    (fs : String → Option (List Nat))
    (engine : COptimizeOptions → Option COptimizeResult)
    (dec : List Nat → Except Unit String) (input : InputSource)
    (mb : Option Int) (md : Option ℚ) (metric : String)
    (fmts : Option (List String)) (c : Int) (ce : Bool) (cd : Option String)
    (cms : Int) (ev : List Event) (opts : COptimizeOptions)
    (hbuild : buildOptions fs input mb md metric fmts c ce cd cms = (ev, .ok opts)) :
    (engine opts = none →
      optimize_image fs engine dec input mb md metric fmts c ce cd cms =
        (ev ++ [.nativeCall true], .ok nullHandleResult) ∧
      nullHandleResult.passed = false ∧
      nullHandleResult.output_buffer = [] ∧
      nullHandleResult.format = "" ∧
      nullHandleResult.diff_value = 0 ∧
      nullHandleResult.error_message = some "Optimization failed: null result" ∧
      "Optimization failed: null result" ≠ "") ∧
    (∀ r s1 s2, engine opts = some r →
      dec (r.format.getD []) = .ok s1 →
      dec (r.error_message.getD []) = .ok s2 →
      ∃ res, (optimize_image fs engine dec input mb md metric fmts c ce cd cms).2 =
        .ok res ∧ res.passed = decide (r.passed ≠ 0)) := by
  constructor
  · intro h
    refine ⟨?_, rfl, rfl, rfl, rfl, rfl, by decide⟩
    simp only [optimize_image, hbuild, h]
  · intro r s1 s2 hr hs1 hs2
    have hx : (optimize_image fs engine dec input mb md metric fmts c ce cd cms).2 =
        .ok
          { output_buffer :=
              (if r.passed ≠ 0 ∧ 0 < r.output_len then
                r.output_bytes.take r.output_len else []),
            format := (if cbytesTruthy r.format then s1 else ""),
            diff_value := r.diff_value,
            passed := decide (r.passed ≠ 0),
            error_message :=
              (if cbytesTruthy r.error_message then some s2 else none) } := by
      simp only [optimize_image, hbuild, hr]
      exact extractResult_2_eq dec r s1 s2 hs1 hs2
    exact ⟨_, hx, rfl⟩

/-- C2 witness: with a concrete engine that returns a null handle, the call
returns the null-handle result; with one returning a failed result struct,
the call still returns normally with `passed = false`. -/
theorem optimize_image_null_handle_reports_witness :
    (optimize_image (fun _ => none) (fun _ => none) (fun _ => .ok "")
      (.bytes [0]) none none "dssim" none 4 true none 0 =
      ([Event.nativeCall true], .ok nullHandleResult)) ∧
    (∃ res, (optimize_image (fun _ => none)
      (fun _ => some { output_bytes := [], output_len := 0, format := none,
                       diff_value := 0, passed := 0, error_message := some [101] })
      (fun _ => .ok "decode failed") (.bytes [0]) none none "dssim" none 4 true
      none 0).2 = .ok res ∧ res.passed = decide ((0 : Nat) ≠ 0)) := by
  constructor
  · have h := (optimize_image_null_handle_reports (fun _ => none) (fun _ => none)
      (fun _ => .ok "") (.bytes [0]) none none "dssim" none 4 true none 0 []
      { input_bytes := [0], input_len := 1, max_bytes := 0, max_diff := 0,
        metric_type := "dssim", formats := "jpeg,png,webp,avif", concurrency := 4,
        cache_enabled := 1, cache_dir := "", cache_max_size := 0 }
      (by decide)).1 rfl
    simpa using h.1
  · exact (optimize_image_null_handle_reports (fun _ => none)
      (fun _ => some { output_bytes := [], output_len := 0, format := none,
                       diff_value := 0, passed := 0, error_message := some [101] })
      (fun _ => .ok "decode failed") (.bytes [0]) none none "dssim" none 4 true
      none 0 []
      { input_bytes := [0], input_len := 1, max_bytes := 0, max_diff := 0,
        metric_type := "dssim", formats := "jpeg,png,webp,avif", concurrency := 4,
        cache_enabled := 1, cache_dir := "", cache_max_size := 0 }
      (by decide)).2 _ "decode failed" "decode failed" rfl rfl rfl

/-- C1 counterexample: the engine reports a failed optimization
(`passed = 0`) together with a non-empty best-effort candidate
(`output_bytes = [1, 2, 3]`, `output_len = 3`) and a non-empty error
message, yet `optimize_image` returns an `OptimizeResult` whose
`output_buffer` is EMPTY — the binding discards the candidate bytes,
refuting the claim that it returns them. -/
theorem optimize_image_best_effort_counterexample :
    (optimize_image (fun _ => none)
      (fun _ => some { output_bytes := [1, 2, 3], output_len := 3,
                       format := some [106, 112, 101, 103], diff_value := 0,
                       passed := 0, error_message := some [109] })
      (fun bs => .ok (if bs = [109] then "max_bytes constraint not met" else "jpeg"))
      (.bytes [0]) (some 10) none "dssim" none 4 true none 0).2 =
      .ok { output_buffer := [], format := "jpeg", diff_value := 0,
            passed := false,
            error_message := some "max_bytes constraint not met" } ∧
    List.length ([] : List Nat) = 0 := by
  constructor
  · decide
  · rfl

/-- C1 (amended): for every request whose optimization fails its constraints
(the engine result has `passed = 0`, with or without a best-effort
candidate), `optimize_image` returns an `OptimizeResult` with
`passed = false` and the engine's error message passed through — but with an
EMPTY `output_buffer`: the binding discards the engine's best-effort
candidate bytes rather than returning them. -/
theorem optimize_image_engine_failure_result
    (fs : String → Option (List Nat))
    (engine : COptimizeOptions → Option COptimizeResult)
    (dec : List Nat → Except Unit String) (input : InputSource)
    (mb : Option Int) (md : Option ℚ) (metric : String)
    (fmts : Option (List String)) (c : Int) (ce : Bool) (cd : Option String)
    (cms : Int) (ev : List Event) (opts : COptimizeOptions)
    (r : COptimizeResult) (s1 s2 : String)
    (hbuild : buildOptions fs input mb md metric fmts c ce cd cms = (ev, .ok opts))
    (hr : engine opts = some r)
    (hp : r.passed = 0)
    (hs1 : dec (r.format.getD []) = .ok s1)
    (hs2 : dec (r.error_message.getD []) = .ok s2) :
    (optimize_image fs engine dec input mb md metric fmts c ce cd cms).2 =
      .ok { output_buffer := [],
            format := if cbytesTruthy r.format then s1 else "",
            diff_value := r.diff_value,
            passed := false,
            error_message := if cbytesTruthy r.error_message then some s2 else none } := by
  have h2 := extractResult_2_eq dec r s1 s2 hs1 hs2
  simp only [optimize_image, hbuild, hr]
  rw [h2]
  simp [hp]

/-- C1 witness for the amended claim: a concrete failed engine result with a
non-empty candidate yields `passed = false`, the engine's error message, and
an empty output buffer. -/
theorem optimize_image_engine_failure_result_witness :
    (optimize_image (fun _ => none)
      (fun _ => some { output_bytes := [1, 2, 3], output_len := 3,
                       format := some [106], diff_value := 0,
                       passed := 0, error_message := some [109] })
      (fun bs => .ok (if bs = [109] then "size constraint violated" else "jpeg"))
      (.bytes [7]) (some 10) none "dssim" none 4 true none 0).2 =
      .ok { output_buffer := [], format := "jpeg", diff_value := 0,
            passed := false, error_message := some "size constraint violated" } := by
  have h := optimize_image_engine_failure_result (fun _ => none)
    (fun _ => some { output_bytes := [1, 2, 3], output_len := 3,
                     format := some [106], diff_value := 0,
                     passed := 0, error_message := some [109] })
    (fun bs => .ok (if bs = [109] then "size constraint violated" else "jpeg"))
    (.bytes [7]) (some 10) none "dssim" none 4 true none 0 []
    { input_bytes := [7], input_len := 1, max_bytes := 10, max_diff := 0,
      metric_type := "dssim", formats := "jpeg,png,webp,avif", concurrency := 4,
      cache_enabled := 1, cache_dir := "", cache_max_size := 0 }
    { output_bytes := [1, 2, 3], output_len := 3, format := some [106],
      diff_value := 0, passed := 0, error_message := some [109] }
    "jpeg" "size constraint violated" (by decide) rfl rfl (by decide) (by decide)
  simpa using h

/-- C6 counterexample: an empty `formats` list is NOT rejected before work
begins — validation passes, the empty string is marshalled into the options
struct, and the native call is made (a `nativeCall` event appears in the
trace), refuting the claimed rejection. -/
theorem optimize_image_formats_counterexample :
    (optimize_image (fun _ => none) (fun _ => none) (fun _ => .ok "")
      (.bytes [0]) none none "dssim" (some []) 4 true none 0 =
      ([Event.nativeCall true], .ok nullHandleResult)) ∧
    ((buildOptions (fun _ => none) (.bytes [0]) none none "dssim" (some []) 4
      true none 0).2 =
      .ok
        { input_bytes := [0], input_len := 1, max_bytes := 0, max_diff := 0,
          metric_type := "dssim", formats := "", concurrency := 4,
          cache_enabled := 1, cache_dir := "", cache_max_size := 0 }) := by
  constructor
  · decide
  · decide

/-- C6 (amended): `optimize_image` performs no validation of `formats`:
when `formats` is `None` the full string "jpeg,png,webp,avif" is marshalled,
and any provided list — including the empty list, which yields the empty
string — is joined with commas and passed through unchanged to the native
call. -/
theorem buildOptions_formats_passthrough
    (fs : String → Option (List Nat)) (input : InputSource)
    (mb : Option Int) (md : Option ℚ) (metric : String)
    (fmts : Option (List String)) (c : Int) (ce : Bool) (cd : Option String)
    (cms : Int) (ev : List Event) (opts : COptimizeOptions)
    (hbuild : buildOptions fs input mb md metric fmts c ce cd cms = (ev, .ok opts)) :
    opts.formats =
      match fmts with
      | none => "jpeg,png,webp,avif"
      | some l => String.intercalate "," l := by
  rcases hval : validateParams mb md metric c with _ | e
  · rcases hin : readInput fs input with ⟨ev2, res⟩
    cases res with
    | error e => simp [buildOptions, hval, hin] at hbuild
    | ok inb =>
      simp only [buildOptions, Prod.mk.injEq, Except.ok.injEq, hval, hin] at hbuild
      obtain ⟨-, hopts⟩ := hbuild
      subst hopts
      cases fmts <;> rfl
  · simp [buildOptions, hval] at hbuild

/-- C6 amended-claim witness: a concrete two-element list is joined with a
comma and passed through. -/
theorem buildOptions_formats_passthrough_witness :
    COptimizeOptions.formats
      { input_bytes := [0], input_len := 1, max_bytes := 0, max_diff := 0,
        metric_type := "dssim", formats := "png,webp", concurrency := 4,
        cache_enabled := 1, cache_dir := "", cache_max_size := 0 } =
      String.intercalate "," ["png", "webp"] := by
  have h := buildOptions_formats_passthrough (fun _ => none) (.bytes [0])
    none none "dssim" (some ["png", "webp"]) 4 true none 0 []
    { input_bytes := [0], input_len := 1, max_bytes := 0, max_diff := 0,
      metric_type := "dssim", formats := "png,webp", concurrency := 4,
      cache_enabled := 1, cache_dir := "", cache_max_size := 0 }
    (by decide)
  exact h

/-- C4: assuming the native engine upholds its result-struct invariant
(`EngineResultOk`, modelled from the spec) and that UTF-8 decoding of
non-empty bytes yields a non-empty string, every `OptimizeResult` that
`optimize_image` returns satisfies the spec invariant: if `passed` is true
the output buffer is non-empty, and if `passed` is false then either at
least one constraint was violated by the engine's candidate or no candidate
could be produced, in which case the returned error message is non-empty. -/
theorem optimize_image_result_invariant
    (fs : String → Option (List Nat))
    (engine : COptimizeOptions → Option COptimizeResult)
    (dec : List Nat → Except Unit String) (input : InputSource)
    (mb : Option Int) (md : Option ℚ) (metric : String)
    (fmts : Option (List String)) (c : Int) (ce : Bool) (cd : Option String)
    (cms : Int) (res : OptimizeResult)
    (heng : ∀ opts r, engine opts = some r → EngineResultOk opts r)
    (hdec : ∀ bs s, dec bs = .ok s → bs ≠ [] → s ≠ "")
    (hres : (optimize_image fs engine dec input mb md metric fmts c ce cd cms).2 =
      .ok res) :
    (res.passed = true → res.output_buffer ≠ []) ∧
    (res.passed = false →
      (∃ opts r, engine opts = some r ∧ r.passed = 0 ∧
        ¬ satisfiesConstraints opts r) ∨
      (∃ s, res.error_message = some s ∧ s ≠ "")) := by
  rcases hbuild : buildOptions fs input mb md metric fmts c ce cd cms with ⟨ev, bres⟩
  cases bres with
  | error e => simp [optimize_image, hbuild] at hres
  | ok opts =>
    cases hr : engine opts with
    | none =>
      simp only [optimize_image, hbuild, hr] at hres
      cases hres
      constructor
      · intro hp; cases hp
      · intro hp
        exact Or.inr ⟨"Optimization failed: null result", rfl, by decide⟩
    | some r =>
      simp only [optimize_image, hbuild, hr] at hres
      obtain ⟨hpass, hbuf, herr⟩ := extractResult_ok_inv dec r res hres
      obtain ⟨hle, hok, hfail⟩ := heng opts r hr
      constructor
      · intro hp
        rw [hpass] at hp
        have hrp : r.passed ≠ 0 := of_decide_eq_true hp
        have hpos : 0 < r.output_len := (hok hrp).1
        rw [hbuf, if_pos ⟨hrp, hpos⟩]
        intro hcontra
        have hlen := congrArg List.length hcontra
        simp only [List.length_take, List.length_nil] at hlen
        omega
      · intro hp
        rw [hpass] at hp
        have hrp : r.passed = 0 := by
          by_contra hne
          simp [hne] at hp
        rcases hfail hrp with hviol | ⟨hlen0, htruthy⟩
        · exact Or.inl ⟨opts, r, hr, hrp, hviol⟩
        · right
          obtain ⟨s, hs, hdecs⟩ := herr htruthy
          refine ⟨s, hs, ?_⟩
          have hbs : r.error_message.getD [] ≠ [] := by
            cases hrm : r.error_message with
            | none => rw [hrm] at htruthy; cases htruthy
            | some l =>
              rw [hrm] at htruthy
              simp only [cbytesTruthy, Bool.not_eq_true', Option.getD_some] at htruthy ⊢
              simpa [List.isEmpty_iff] using htruthy
          exact hdec _ s hdecs hbs

/-- C4 witness: a concrete engine that always returns a null handle
vacuously satisfies the engine invariant, and the returned null-handle
result satisfies the claimed invariant. -/
theorem optimize_image_result_invariant_witness :
    (nullHandleResult.passed = true → nullHandleResult.output_buffer ≠ []) ∧
    (nullHandleResult.passed = false →
      (∃ opts r, (fun _ : COptimizeOptions => (none : Option COptimizeResult))
        opts = some r ∧ r.passed = 0 ∧ ¬ satisfiesConstraints opts r) ∨
      (∃ s, nullHandleResult.error_message = some s ∧ s ≠ "")) := by
  exact optimize_image_result_invariant (fun _ => none) (fun _ => none)
    (fun bs => .ok (if bs = [] then "" else "x")) (.bytes [0]) none none
    "dssim" none 4 true none 0 nullHandleResult
    (fun opts r h => nomatch h)
    (by
      intro bs s h hne
      cases h
      simp [hne])
    (by decide)

/-- C8: on every execution path of `optimize_image`, `pyjamaz_free_result`
is called exactly as many times as the native call returned a non-null
handle (so exactly once per non-null handle, zero times otherwise — also
when field extraction raises), and when it is called it is the LAST event
of the trace, hence it comes only after every copy of the result struct's
fields into Python-owned memory. -/
theorem optimize_image_free_result_once
    (fs : String → Option (List Nat))
    (engine : COptimizeOptions → Option COptimizeResult)
    (dec : List Nat → Except Unit String) (input : InputSource)
    (mb : Option Int) (md : Option ℚ) (metric : String)
    (fmts : Option (List String)) (c : Int) (ce : Bool) (cd : Option String)
    (cms : Int) (tr : List Event) (res : Except PyError OptimizeResult)
    (h : optimize_image fs engine dec input mb md metric fmts c ce cd cms = (tr, res)) :
    tr.count Event.freeResult = tr.count (Event.nativeCall false) ∧
    (Event.freeResult ∈ tr → tr.getLast? = some Event.freeResult ∧
      tr.count Event.freeResult = 1) := by
  have hev := buildOptions_fst fs input mb md metric fmts c ce cd cms
  rcases hbuild : buildOptions fs input mb md metric fmts c ce cd cms with ⟨ev, bres⟩
  rw [hbuild] at hev
  cases bres with
  | error e =>
    simp only [optimize_image, hbuild, Prod.mk.injEq] at h
    obtain ⟨rfl, rfl⟩ := h
    rcases hev with rfl | rfl <;> simp
  | ok opts =>
    cases hr : engine opts with
    | none =>
      simp only [optimize_image, hbuild, hr, Prod.mk.injEq] at h
      obtain ⟨rfl, rfl⟩ := h
      rcases hev with rfl | rfl <;> simp
    | some r =>
      simp only [optimize_image, hbuild, hr, Prod.mk.injEq] at h
      obtain ⟨htr, rfl⟩ := h
      subst htr
      have hmember := extractResult_events dec r
      have hfree2 : Event.freeResult ∉ (extractResult dec r).1 := by
        intro hm; rcases hmember _ hm with h1 | h1 | h1 <;> simp at h1
      have hnc2 : Event.nativeCall false ∉ (extractResult dec r).1 := by
        intro hm; rcases hmember _ hm with h1 | h1 | h1 <;> simp at h1
      have hfreeEv : Event.freeResult ∉ ev ∧ Event.nativeCall false ∉ ev := by
        rcases hev with rfl | rfl <;> exact ⟨by simp, by simp⟩
      have hcnt1 : (ev ++ [Event.nativeCall false] ++ (extractResult dec r).1 ++
          [Event.freeResult]).count Event.freeResult = 1 := by
        simp [List.count_append, List.count_eq_zero.mpr hfree2,
          List.count_eq_zero.mpr hfreeEv.1]
      have hcnt2 : (ev ++ [Event.nativeCall false] ++ (extractResult dec r).1 ++
          [Event.freeResult]).count (Event.nativeCall false) = 1 := by
        simp [List.count_append, List.count_eq_zero.mpr hnc2,
          List.count_eq_zero.mpr hfreeEv.2]
      refine ⟨by rw [hcnt1, hcnt2], fun _ => ⟨?_, hcnt1⟩⟩
      have hassoc : ev ++ [Event.nativeCall false] ++ (extractResult dec r).1 ++
          [Event.freeResult] =
          (ev ++ [Event.nativeCall false] ++ (extractResult dec r).1) ++
            [Event.freeResult] := by
        simp [List.append_assoc]
      rw [hassoc, List.getLast?_concat]

/-- C8 witness: a concrete run with a non-null handle has exactly one
`freeResult` event, as its final event. -/
theorem optimize_image_free_result_once_witness :
    ([Event.nativeCall false, Event.copyFormat, Event.copyError,
        Event.freeResult].count Event.freeResult =
      [Event.nativeCall false, Event.copyFormat, Event.copyError,
        Event.freeResult].count (Event.nativeCall false)) ∧
    (Event.freeResult ∈ [Event.nativeCall false, Event.copyFormat,
        Event.copyError, Event.freeResult] →
      [Event.nativeCall false, Event.copyFormat, Event.copyError,
        Event.freeResult].getLast? = some Event.freeResult ∧
      [Event.nativeCall false, Event.copyFormat, Event.copyError,
        Event.freeResult].count Event.freeResult = 1) := by
  exact optimize_image_free_result_once (fun _ => none)
    (fun _ => some { output_bytes := [], output_len := 0, format := none,
                     diff_value := 0, passed := 0, error_message := none })
    (fun _ => .ok "") (.bytes [0]) none none "dssim" none 4 true none 0
    [Event.nativeCall false, Event.copyFormat, Event.copyError, Event.freeResult]
    (.ok { output_buffer := [], format := "", diff_value := 0, passed := false,
           error_message := none })
    (by decide)

end Pyjamaz
